import Mathlib

/-!
Shallow embedding of the backendconnect location-sharing and messaging
routers (the Express handlers in the location routes file and in
src/routes/messages.js), together with proofs about them.

Tables are lists of rows; timestamps are naturals; each handler is a pure
function from a state and its request parameters (plus the current clock
value standing for SQL NOW()) to the next state and an HTTP status code
(plus any payload the claims need).  PostgreSQL statement failures are
modelled as the handler's catch branch: the response is 500 and every
query already executed before the failing one keeps its effect (the
handlers run their queries outside any transaction).
-/

namespace BackendConnect

/-! ### Unique constraints declared by the CREATE TABLE statements

PostgreSQL accepts `INSERT ... ON CONFLICT (cols) DO ...` only when some
unique constraint or unique index on exactly those columns exists;
otherwise the statement itself is rejected.  These lists record, for each
table, the column sets carrying a unique constraint (SERIAL PRIMARY KEY
gives one on `id`; a plain CREATE INDEX does not). -/

def userContactsUniques : List (List String) :=
  [["id"], ["user_id", "contact_user_id"]]

def locationTrackingUniques : List (List String) :=
  [["id"]]

def locationAlertsUniques : List (List String) :=
  [["id"]]

def conversationsUniques : List (List String) :=
  [["id"], ["user1_id", "user2_id"]]

def chatInvitationsUniques : List (List String) :=
  [["id"], ["sender_id", "receiver_id"]]

def conversationDeletedByUniques : List (List String) :=
  [["id"], ["conversation_id", "user_id"]]

/-- PostgreSQL conflict-target inference: the target column list must match
one of the table's unique constraints. -/
def conflictTargetValid (uniques : List (List String)) (target : List String) : Bool :=
  uniques.contains target

/-! ### Location module rows and state -/

structure ContactRow where
  id : Nat
  user_id : Nat
  contact_user_id : Nat
  created_at : Nat
  updated_at : Nat
deriving Repr, DecidableEq

structure AlertRow where
  id : Nat
  user_id : Nat
  contact_user_id : Nat
  alert_status : String
  started_at : Nat
  ended_at : Option Nat
deriving Repr, DecidableEq

structure LocRow where
  id : Nat
  user_id : Nat
  latitude : Int
  longitude : Int
  accuracy : Option Int
  created_at : Nat
  updated_at : Nat
deriving Repr, DecidableEq

structure LocState where
  users : List Nat
  user_contacts : List ContactRow
  location_alerts : List AlertRow
  location_tracking : List LocRow
  nextContactId : Nat
  nextAlertId : Nat
  nextLocId : Nat
deriving Repr, DecidableEq

/-! ### Location handlers -/

/-- POST /api/location/add-contact.  Body value 0 stands for a missing or
falsy contactUserId. -/
def addContact (s : LocState) (userId contactUserId : Nat) (now : Nat) :
    LocState × Nat :=
  if contactUserId == 0 then (s, 400)
  else if !(s.users.contains contactUserId) then (s, 404)
  else if conflictTargetValid userContactsUniques ["user_id", "contact_user_id"] then
    if s.user_contacts.any (fun c => c.user_id == userId && c.contact_user_id == contactUserId) then
      ({ s with user_contacts := s.user_contacts.map (fun c =>
          if c.user_id == userId && c.contact_user_id == contactUserId then
            { c with updated_at := now }
          else c) }, 201)
    else
      ({ s with
          user_contacts := s.user_contacts ++
            [{ id := s.nextContactId, user_id := userId,
               contact_user_id := contactUserId, created_at := now,
               updated_at := now }],
          nextContactId := s.nextContactId + 1 }, 201)
  else (s, 500)

/-- DELETE /api/location/contacts/:contactId. -/
def removeContact (s : LocState) (contactId userId : Nat) : LocState × Nat :=
  let matched := s.user_contacts.any (fun c => c.id == contactId && c.user_id == userId)
  let remaining := s.user_contacts.filter (fun c => !(c.id == contactId && c.user_id == userId))
  if matched then ({ s with user_contacts := remaining }, 200)
  else (s, 404)

/-- Row update performed by the UPDATE in both send-alert (deactivation) and
stop-alert. -/
def deactivateRow (now : Nat) (a : AlertRow) : AlertRow :=
  { a with alert_status := "inactive", ended_at := some now }

/-- POST /api/location/send-alert.  The final location upsert names conflict
target (user_id), which location_tracking has no unique constraint for, so
that statement fails; the two alert queries before it keep their effect and
the handler answers 500 from its catch branch. -/
def sendAlert (s : LocState) (userId contactUserId : Nat)
    (latitude longitude : Option Int) (now : Nat) : LocState × Nat :=
  if contactUserId == 0 || latitude.isNone || longitude.isNone then (s, 400)
  else if !(s.user_contacts.any (fun c =>
      c.user_id == userId && c.contact_user_id == contactUserId)) then
    (s, 403)
  else
    let deactivated := s.location_alerts.map (fun a =>
      if a.user_id == userId && a.contact_user_id == contactUserId &&
          a.alert_status == "active" then
        deactivateRow now a
      else a)
    let inserted := deactivated ++
      [{ id := s.nextAlertId, user_id := userId, contact_user_id := contactUserId,
         alert_status := "active", started_at := now, ended_at := none }]
    let s1 := { s with location_alerts := inserted, nextAlertId := s.nextAlertId + 1 }
    if conflictTargetValid locationTrackingUniques ["user_id"] then
      let locs :=
        if s1.location_tracking.any (fun r => r.user_id == userId) then
          s1.location_tracking.map (fun r =>
            if r.user_id == userId then
              { r with latitude := latitude.getD 0, longitude := longitude.getD 0,
                       updated_at := now }
            else r)
        else
          s1.location_tracking ++
            [{ id := s1.nextLocId, user_id := userId, latitude := latitude.getD 0,
               longitude := longitude.getD 0, accuracy := none, created_at := now,
               updated_at := now }]
      ({ s1 with location_tracking := locs, nextLocId := s1.nextLocId + 1 }, 201)
    else (s1, 500)

/-- POST /api/location/update-location.  Same invalid conflict target
(user_id) on location_tracking, so the single INSERT fails and the handler
answers 500 with the state untouched. -/
def updateLocation (s : LocState) (userId : Nat)
    (latitude longitude : Option Int) (accuracy : Option Int) (now : Nat) :
    LocState × Nat :=
  if latitude.isNone || longitude.isNone then (s, 400)
  else if conflictTargetValid locationTrackingUniques ["user_id"] then
    let locs :=
      if s.location_tracking.any (fun r => r.user_id == userId) then
        s.location_tracking.map (fun r =>
          if r.user_id == userId then
            { r with latitude := latitude.getD 0, longitude := longitude.getD 0,
                     accuracy := accuracy, updated_at := now }
          else r)
      else
        s.location_tracking ++
          [{ id := s.nextLocId, user_id := userId, latitude := latitude.getD 0,
             longitude := longitude.getD 0, accuracy := accuracy, created_at := now,
             updated_at := now }]
    ({ s with location_tracking := locs, nextLocId := s.nextLocId + 1 }, 200)
  else (s, 500)

/-- POST /api/location/stop-alert/:alertId.  One UPDATE filtered by both the
alert id and the caller as owner; an empty RETURNING set answers 404. -/
def stopAlert (s : LocState) (alertId userId : Nat) (now : Nat) : LocState × Nat :=
  let matched := s.location_alerts.any (fun a => a.id == alertId && a.user_id == userId)
  let updated := s.location_alerts.map (fun a =>
    if a.id == alertId && a.user_id == userId then deactivateRow now a else a)
  if matched then ({ s with location_alerts := updated }, 200)
  else (s, 404)

/-! ### Reachable location states -/

/-- Initial state: the location tables are created empty; the users table may
hold any users. -/
def locInit (users : List Nat) : LocState :=
  { users := users, user_contacts := [], location_alerts := [],
    location_tracking := [], nextContactId := 1, nextAlertId := 1, nextLocId := 1 }

/-- States reachable from a fresh database through the mutating handlers of
the location router. -/
inductive LocReachable : LocState → Prop where
  | init (users : List Nat) : LocReachable (locInit users)
  | addContact (s : LocState) (userId contactUserId now : Nat) :
      LocReachable s → LocReachable (addContact s userId contactUserId now).1
  | removeContact (s : LocState) (contactId userId : Nat) :
      LocReachable s → LocReachable (removeContact s contactId userId).1
  | sendAlert (s : LocState) (userId contactUserId : Nat)
      (latitude longitude : Option Int) (now : Nat) :
      LocReachable s → LocReachable (sendAlert s userId contactUserId latitude longitude now).1
  | updateLocation (s : LocState) (userId : Nat)
      (latitude longitude accuracy : Option Int) (now : Nat) :
      LocReachable s → LocReachable (updateLocation s userId latitude longitude accuracy now).1
  | stopAlert (s : LocState) (alertId userId now : Nat) :
      LocReachable s → LocReachable (stopAlert s alertId userId now).1

/-- Row predicate: an active alert from sender to receiver. -/
def activePred (sender receiver : Nat) (a : AlertRow) : Bool :=
  a.user_id == sender && a.contact_user_id == receiver && a.alert_status == "active"

/-- Number of location_alerts rows with status active for the ordered pair
(sender, receiver). -/
def activeCount (s : LocState) (sender receiver : Nat) : Nat :=
  s.location_alerts.countP (activePred sender receiver)

/-! ### Messaging module rows and state -/

structure InvitationRow where
  id : Nat
  sender_id : Nat
  receiver_id : Nat
  status : String
  created_at : Nat
  updated_at : Nat
deriving Repr, DecidableEq

structure ConversationRow where
  id : Nat
  user1_id : Nat
  user2_id : Nat
  created_at : Nat
  updated_at : Nat
deriving Repr, DecidableEq

structure MessageRow where
  id : Nat
  conversation_id : Nat
  sender_id : Nat
  content : String
  message_type : String
  is_read : Bool
  created_at : Nat
deriving Repr, DecidableEq

structure DeletedRow where
  conversation_id : Nat
  user_id : Nat
  deleted_at : Nat
deriving Repr, DecidableEq

structure MsgState where
  users : List Nat
  chat_invitations : List InvitationRow
  conversations : List ConversationRow
  messages : List MessageRow
  conversation_deleted_by : List DeletedRow
  nextInvId : Nat
  nextConvId : Nat
  nextMsgId : Nat
deriving Repr, DecidableEq

/-! ### Messaging handlers -/

/-- POST /api/messages/send-invitation.  Body value 0 stands for a missing or
falsy receiverId.  The upsert's conflict target (sender_id, receiver_id)
matches the table's unique constraint. -/
def sendInvitation (s : MsgState) (senderId receiverId : Nat) (now : Nat) :
    MsgState × Nat :=
  if receiverId == 0 then (s, 400)
  else if senderId == receiverId then (s, 400)
  else if !(s.users.contains receiverId) then (s, 404)
  else if conflictTargetValid chatInvitationsUniques ["sender_id", "receiver_id"] then
    if s.chat_invitations.any (fun i =>
        i.sender_id == senderId && i.receiver_id == receiverId) then
      ({ s with chat_invitations := s.chat_invitations.map (fun i =>
          if i.sender_id == senderId && i.receiver_id == receiverId then
            { i with status := "pending", updated_at := now }
          else i) }, 201)
    else
      ({ s with
          chat_invitations := s.chat_invitations ++
            [{ id := s.nextInvId, sender_id := senderId, receiver_id := receiverId,
               status := "pending", created_at := now, updated_at := now }],
          nextInvId := s.nextInvId + 1 }, 201)
  else (s, 500)

/-- Response of the accept handler: status code and the conversation row
carried in the JSON body, if any (ON CONFLICT DO NOTHING RETURNING yields no
row when the insert is skipped, so the field is then absent). -/
structure AcceptResp where
  status : Nat
  conversation : Option ConversationRow
deriving Repr, DecidableEq

/-- POST /api/messages/invitations/:invitationId/accept.  No check that the
invitation is still pending; the conversation insert uses the canonical
(min, max) pair with ON CONFLICT DO NOTHING.  A min = max pair would violate
the different_users CHECK and fail the statement after the invitation update
already ran. -/
def acceptInvitation (s : MsgState) (invitationId userId : Nat) (now : Nat) :
    MsgState × AcceptResp :=
  match s.chat_invitations.find? (fun i => i.id == invitationId) with
  | none => (s, { status := 404, conversation := none })
  | some inv =>
    if inv.receiver_id != userId then (s, { status := 403, conversation := none })
    else
      let invs := s.chat_invitations.map (fun i =>
        if i.id == invitationId then { i with status := "accepted", updated_at := now }
        else i)
      let u1 := min inv.sender_id inv.receiver_id
      let u2 := max inv.sender_id inv.receiver_id
      if u1 == u2 then
        ({ s with chat_invitations := invs }, { status := 500, conversation := none })
      else if s.conversations.any (fun c => c.user1_id == u1 && c.user2_id == u2) then
        ({ s with chat_invitations := invs }, { status := 200, conversation := none })
      else
        let conv : ConversationRow :=
          { id := s.nextConvId, user1_id := u1, user2_id := u2,
            created_at := now, updated_at := now }
        ({ s with
            chat_invitations := invs,
            conversations := s.conversations ++ [conv],
            nextConvId := s.nextConvId + 1 },
         { status := 200, conversation := some conv })

/-- POST /api/messages/invitations/:invitationId/decline.  Receiver check
only; no check that the invitation is still pending. -/
def declineInvitation (s : MsgState) (invitationId userId : Nat) (now : Nat) :
    MsgState × Nat :=
  match s.chat_invitations.find? (fun i => i.id == invitationId) with
  | none => (s, 404)
  | some inv =>
    if inv.receiver_id != userId then (s, 403)
    else
      ({ s with chat_invitations := s.chat_invitations.map (fun i =>
          if i.id == invitationId then { i with status := "declined", updated_at := now }
          else i) }, 200)

/-- POST /api/messages/invitations/:invitationId/cancel.  Sender check, and
only a pending invitation may be canceled. -/
def cancelInvitation (s : MsgState) (invitationId userId : Nat) (now : Nat) :
    MsgState × Nat :=
  match s.chat_invitations.find? (fun i => i.id == invitationId) with
  | none => (s, 404)
  | some inv =>
    if inv.sender_id != userId then (s, 403)
    else if inv.status != "pending" then (s, 400)
    else
      ({ s with chat_invitations := s.chat_invitations.map (fun i =>
          if i.id == invitationId then { i with status := "canceled", updated_at := now }
          else i) }, 200)

/-- Stable descending insertion by a natural-number key, used to model
ORDER BY key DESC. -/
def insertDescBy (key : MessageRow → Nat) (x : MessageRow) :
    List MessageRow → List MessageRow
  | [] => [x]
  | y :: ys => if key y < key x then x :: y :: ys else y :: insertDescBy key x ys

def sortDescBy (key : MessageRow → Nat) : List MessageRow → List MessageRow
  | [] => []
  | x :: xs => insertDescBy key x (sortDescBy key xs)

def insertConvDescBy (key : ConversationRow → Nat) (x : ConversationRow) :
    List ConversationRow → List ConversationRow
  | [] => [x]
  | y :: ys => if key y < key x then x :: y :: ys else y :: insertConvDescBy key x ys

def sortConvDescBy (key : ConversationRow → Nat) :
    List ConversationRow → List ConversationRow
  | [] => []
  | x :: xs => insertConvDescBy key x (sortConvDescBy key xs)

/-- GET /api/messages/conversations: conversations the user takes part in,
whose counterpart exists in users (inner join), and that the user has not
soft-deleted, ordered by updated_at descending. -/
def listConversations (s : MsgState) (userId : Nat) : List ConversationRow :=
  let mine := s.conversations.filter (fun c =>
    (c.user1_id == userId || c.user2_id == userId) &&
    s.users.contains (if c.user1_id == userId then c.user2_id else c.user1_id) &&
    !(s.conversation_deleted_by.any (fun d =>
        d.user_id == userId && d.conversation_id == c.id)))
  sortConvDescBy (fun c => c.updated_at) mine

/-- Response of the getMessages handler: status code and the page of message
rows, already put back into ascending order by the final reverse(). -/
structure MessagesResp where
  status : Nat
  rows : List MessageRow
deriving Repr, DecidableEq

/-- GET /api/messages/conversations/:conversationId/messages.  Non-participants
get 403; a soft-delete mark of the caller restricts the page to messages
strictly after the mark; all unread counterpart messages of the conversation
are then marked read. -/
def getMessages (s : MsgState) (conversationId userId : Nat)
    (limit offsetN : Nat) : MsgState × MessagesResp :=
  match s.conversations.find? (fun c =>
      c.id == conversationId && (c.user1_id == userId || c.user2_id == userId)) with
  | none => (s, { status := 403, rows := [] })
  | some _ =>
    let deletion := s.conversation_deleted_by.find? (fun d =>
      d.conversation_id == conversationId && d.user_id == userId)
    let base := s.messages.filter (fun m => m.conversation_id == conversationId)
    let visible :=
      match deletion with
      | some d => base.filter (fun m => d.deleted_at < m.created_at)
      | none => base
    let ordered := sortDescBy (fun m => m.created_at) visible
    let page := (ordered.drop offsetN).take limit
    let marked := s.messages.map (fun m =>
      if m.conversation_id == conversationId && m.sender_id != userId &&
          m.is_read == false then
        { m with is_read := true }
      else m)
    ({ s with messages := marked }, { status := 200, rows := page.reverse })

/-- POST /api/messages/conversations/:conversationId/send.  Empty content
stands for a missing or falsy body content, and empty messageType for a
missing one (defaulted to text).  The counterpart's soft-delete mark rows on
this conversation are removed before the insert. -/
def sendMessage (s : MsgState) (conversationId userId : Nat)
    (content messageType : String) (now : Nat) : MsgState × Nat :=
  if content == "" then (s, 400)
  else
    match s.conversations.find? (fun c =>
        c.id == conversationId && (c.user1_id == userId || c.user2_id == userId)) with
    | none => (s, 403)
    | some conv =>
      let otherUserId := if conv.user1_id == userId then conv.user2_id else conv.user1_id
      let cleaned := s.conversation_deleted_by.filter (fun d =>
        !(d.conversation_id == conversationId && d.user_id == otherUserId))
      let msg : MessageRow :=
        { id := s.nextMsgId, conversation_id := conversationId, sender_id := userId,
          content := content,
          message_type := if messageType == "" then "text" else messageType,
          is_read := false, created_at := now }
      let convs := s.conversations.map (fun c =>
        if c.id == conversationId then { c with updated_at := now } else c)
      ({ s with
          conversation_deleted_by := cleaned,
          messages := s.messages ++ [msg],
          conversations := convs,
          nextMsgId := s.nextMsgId + 1 }, 201)

/-- POST /api/messages/conversations/:conversationId/delete.  Idempotent
insert of a soft-delete mark: ON CONFLICT (conversation_id, user_id)
DO NOTHING keeps the first mark's timestamp. -/
def deleteConversation (s : MsgState) (conversationId userId : Nat) (now : Nat) :
    MsgState × Nat :=
  match s.conversations.find? (fun c =>
      c.id == conversationId && (c.user1_id == userId || c.user2_id == userId)) with
  | none => (s, 403)
  | some _ =>
    if s.conversation_deleted_by.any (fun d =>
        d.conversation_id == conversationId && d.user_id == userId) then
      (s, 200)
    else
      ({ s with conversation_deleted_by := s.conversation_deleted_by ++
          [{ conversation_id := conversationId, user_id := userId,
             deleted_at := now }] }, 200)

/-! ## Helper lemmas for the location module -/

theorem countP_map_le {α : Type} (f : α → α) (p : α → Bool)
    (h : ∀ x, p (f x) = true → p x = true) (l : List α) :
    (l.map f).countP p ≤ l.countP p := by
  induction l with
  | nil => exact Nat.le_refl _
  | cons a l ih =>
    simp only [List.map_cons, List.countP_cons]
    have hle : (if p (f a) = true then 1 else 0) ≤ (if p a = true then 1 else 0) := by
      by_cases hpf : p (f a) = true
      · rw [if_pos hpf, if_pos (h a hpf)]
      · rw [if_neg hpf]
        exact Nat.zero_le _
    exact Nat.add_le_add ih hle

theorem addContact_alerts (s : LocState) (u c n : Nat) :
    (addContact s u c n).1.location_alerts = s.location_alerts := by
  unfold addContact
  split
  · rfl
  · split
    · rfl
    · split
      · split <;> rfl
      · rfl

theorem removeContact_alerts (s : LocState) (cid u : Nat) :
    (removeContact s cid u).1.location_alerts = s.location_alerts := by
  simp only [removeContact]
  split <;> rfl

theorem updateLocation_fst (s : LocState) (userId : Nat) (la lo acc : Option Int)
    (now : Nat) : (updateLocation s userId la lo acc now).1 = s := by
  unfold updateLocation
  split
  · rfl
  · split
    · next h => exact absurd h (by decide)
    · rfl

theorem countP_deact_self (u c n : Nat) (l : List AlertRow) :
    (l.map (fun a =>
      if a.user_id == u && a.contact_user_id == c && a.alert_status == "active" then
        deactivateRow n a
      else a)).countP (activePred u c) = 0 := by
  rw [List.countP_eq_zero]
  intro x hx
  rcases List.mem_map.mp hx with ⟨y, _, rfl⟩
  by_cases hc : (y.user_id == u && y.contact_user_id == c && y.alert_status == "active") = true
  · rw [if_pos hc]
    simp [activePred, deactivateRow]
  · rw [if_neg hc]
    simpa [activePred] using hc

theorem countP_singleton {α : Type} (p : α → Bool) (x : α) :
    List.countP p [x] = if p x = true then 1 else 0 := by
  simp [List.countP_cons]

theorem countP_deact_other (u c n sa rb : Nat) (l : List AlertRow)
    (hne : ¬(sa = u ∧ rb = c)) :
    (l.map (fun a =>
      if a.user_id == u && a.contact_user_id == c && a.alert_status == "active" then
        deactivateRow n a
      else a)).countP (activePred sa rb) = l.countP (activePred sa rb) := by
  rw [List.countP_map]
  apply List.countP_congr
  intro y _
  simp only [Function.comp_apply]
  by_cases hc : (y.user_id == u && y.contact_user_id == c && y.alert_status == "active") = true
  · have hc2 := hc
    simp only [Bool.and_eq_true, beq_iff_eq] at hc2
    obtain ⟨⟨h1, h2⟩, -⟩ := hc2
    rw [if_pos hc]
    simp only [activePred, deactivateRow, Bool.and_eq_true, beq_iff_eq]
    constructor
    · rintro ⟨-, habs⟩
      exact absurd habs (by decide)
    · rintro ⟨⟨ha, hb⟩, -⟩
      exact absurd ⟨ha.symm.trans h1, hb.symm.trans h2⟩ hne
  · rw [if_neg hc]

theorem stopAlert_countP_le (s : LocState) (aid uid n sa rb : Nat) :
    activeCount (stopAlert s aid uid n).1 sa rb ≤ activeCount s sa rb := by
  simp only [stopAlert, activeCount]
  split
  · apply countP_map_le
    intro x
    by_cases hc : (x.id == aid && x.user_id == uid) = true
    · rw [if_pos hc]
      intro h
      simp [activePred, deactivateRow] at h
    · rw [if_neg hc]
      exact id
  · exact Nat.le_refl _

/-! ## C1 and its supporting lemma -/

theorem sendAlert_activeCount_le (s : LocState) (u c : Nat) (la lo : Option Int)
    (n : Nat) (ih : ∀ a b, activeCount s a b ≤ 1) (a b : Nat) :
    activeCount (sendAlert s u c la lo n).1 a b ≤ 1 := by
  unfold sendAlert
  split
  · exact ih a b
  · split
    · exact ih a b
    · split
      · next h => exact absurd h (by decide)
      · show List.countP (activePred a b) (_ ++ _) ≤ 1
        rw [List.countP_append, countP_singleton]
        by_cases hab : a = u ∧ b = c
        · rcases hab with ⟨rfl, rfl⟩
          rw [countP_deact_self]
          simp [activePred]
        · rw [countP_deact_other u c n a b _ hab]
          have hnew : activePred a b
              { id := s.nextAlertId, user_id := u, contact_user_id := c,
                alert_status := "active", started_at := n, ended_at := none } = false := by
            simp only [activePred, Bool.and_eq_true, beq_iff_eq, Bool.eq_false_iff,
              ne_eq]
            rintro ⟨⟨h1, h2⟩, -⟩
            exact hab ⟨h1.symm, h2.symm⟩
          rw [hnew]
          simp only [Bool.false_eq_true, if_false]
          have hs := ih a b
          unfold activeCount at hs
          omega

/-- C1: at every state reachable through the location handlers, at most one
location_alerts row with status active exists for each ordered
(sender, contact) pair; send-alert deactivates the pair's active rows
(stamping ended_at) before inserting the one new active row. -/
theorem active_alert_at_most_one (s : LocState) (h : LocReachable s)
    (sender receiver : Nat) : activeCount s sender receiver ≤ 1 := by
  induction h generalizing sender receiver with
  | init users => simp [activeCount, locInit]
  | addContact s u c n _ ih =>
    unfold activeCount
    rw [addContact_alerts]
    exact ih sender receiver
  | removeContact s cid u _ ih =>
    unfold activeCount
    rw [removeContact_alerts]
    exact ih sender receiver
  | sendAlert s u c la lo n _ ih =>
    exact sendAlert_activeCount_le s u c la lo n ih sender receiver
  | updateLocation s u la lo acc n _ ih =>
    rw [updateLocation_fst]
    exact ih sender receiver
  | stopAlert s aid uid n _ ih =>
    exact Nat.le_trans (stopAlert_countP_le s aid uid n sender receiver)
      (ih sender receiver)

/-- C1 witness: the invariant instantiated at a concrete reachable state, the
one reached by add-contact then send-alert from a fresh database. -/
theorem active_alert_at_most_one_witness :
    activeCount
      (sendAlert (addContact (locInit [1, 2]) 1 2 0).1 1 2 (some 3) (some 4) 1).1
      1 2 ≤ 1 :=
  active_alert_at_most_one _
    (LocReachable.sendAlert _ _ _ _ _ _
      (LocReachable.addContact _ _ _ _ (LocReachable.init [1, 2]))) 1 2

/-! ## C2 -/

/-- C2 is a code bug: the update-location INSERT names conflict target
(user_id), but location_tracking carries no unique constraint on user_id
(only a plain index), so PostgreSQL rejects the statement and the handler
always answers 500 from its catch branch, leaving the state untouched, for
every caller and every well-formed body. -/
theorem updateLocation_always_fails (s : LocState) (userId : Nat)
    (lat lon : Int) (accuracy : Option Int) (now : Nat) :
    updateLocation s userId (some lat) (some lon) accuracy now = (s, 500) := rfl

/-! ## C3 -/

/-- State holding one active alert with id 1 sent by user 1 to user 2. -/
def stopAlertCexState : LocState :=
  { locInit [1, 2] with
      location_alerts := [{ id := 1, user_id := 1, contact_user_id := 2,
                            alert_status := "active", started_at := 0,
                            ended_at := none }] }

/-- C3 counterexample: alert 1 exists and belongs to user 1, yet user 2's
stop request answers 404, not the 403 the claim requires for the
wrong-caller case; the two failure cases are not distinguished. -/
theorem stopAlert_wrong_caller_counterexample :
    (stopAlert stopAlertCexState 1 2 5).2 = 404 ∧
    (stopAlert stopAlertCexState 1 2 5).2 ≠ 403 := by
  decide

/-- C3 amended: stopAlert answers 404 both when no alert with id A exists and
when one exists but the caller is not its sender — the handler filters one
UPDATE by id and owner together, never answers 403 and does not distinguish
the two failures; when the caller owns a matching alert it answers 200, sets
the row inactive stamping ended_at and keeps every other row; stopping an
already-inactive alert by its sender also answers 200 (no error). -/
theorem stopAlert_spec (s : LocState) (alertId userId now : Nat) :
    ((∀ a ∈ s.location_alerts, ¬(a.id = alertId ∧ a.user_id = userId)) →
      stopAlert s alertId userId now = (s, 404)) ∧
    ((∃ a ∈ s.location_alerts, a.id = alertId ∧ a.user_id = userId) →
      (stopAlert s alertId userId now).2 = 200 ∧
      (∀ a ∈ (stopAlert s alertId userId now).1.location_alerts,
        a.id = alertId ∧ a.user_id = userId →
          a.alert_status = "inactive" ∧ a.ended_at = some now) ∧
      (∀ a ∈ s.location_alerts, ¬(a.id = alertId ∧ a.user_id = userId) →
        a ∈ (stopAlert s alertId userId now).1.location_alerts)) ∧
    (stopAlert s alertId userId now).2 ≠ 403 := by
  refine ⟨?_, ?_, ?_⟩
  · intro h
    have hm : (s.location_alerts.any fun a => a.id == alertId && a.user_id == userId)
        = false := by
      rw [Bool.eq_false_iff]
      intro hany
      rcases List.any_eq_true.mp hany with ⟨a, ha, hpa⟩
      simp only [Bool.and_eq_true, beq_iff_eq] at hpa
      exact h a ha hpa
    simp [stopAlert, hm]
  · rintro ⟨a0, ha0, hid, hu⟩
    have hm : (s.location_alerts.any fun a => a.id == alertId && a.user_id == userId)
        = true :=
      List.any_eq_true.mpr ⟨a0, ha0, by simp [hid, hu]⟩
    have hstop : stopAlert s alertId userId now =
        ({ s with location_alerts := s.location_alerts.map (fun a =>
            if a.id == alertId && a.user_id == userId
            then deactivateRow now a else a) }, 200) := by
      simp [stopAlert, hm]
    rw [hstop]
    refine ⟨rfl, ?_, ?_⟩
    · intro a ha hcond
      rcases List.mem_map.mp ha with ⟨y, _, rfl⟩
      by_cases hy : (y.id == alertId && y.user_id == userId) = true
      · rw [if_pos hy]
        exact ⟨rfl, rfl⟩
      · rw [if_neg hy] at hcond ⊢
        exact absurd (by simp [hcond.1, hcond.2]) hy
    · intro a ha hne
      have : (if (a.id == alertId && a.user_id == userId) = true
          then deactivateRow now a else a) = a := by
        rw [if_neg]
        intro hcontra
        simp only [Bool.and_eq_true, beq_iff_eq] at hcontra
        exact hne hcontra
      exact this ▸ List.mem_map_of_mem _ ha
  · simp only [stopAlert]
    split <;> simp

/-- C3 witness: stopping an already-inactive alert by its sender answers 200
rather than erroring. -/
theorem stopAlert_spec_witness :
    (stopAlert
      { locInit [1, 2] with
          location_alerts := [{ id := 1, user_id := 1, contact_user_id := 2,
                                alert_status := "inactive", started_at := 0,
                                ended_at := some 1 }] } 1 1 7).2 = 200 :=
  ((stopAlert_spec
    { locInit [1, 2] with
        location_alerts := [{ id := 1, user_id := 1, contact_user_id := 2,
                              alert_status := "inactive", started_at := 0,
                              ended_at := some 1 }] } 1 1 7).2.1
    ⟨{ id := 1, user_id := 1, contact_user_id := 2, alert_status := "inactive",
       started_at := 0, ended_at := some 1 }, by decide, by decide⟩).1

/-! ## C10 -/

/-- C10: no self-contact check exists: addContact(U, U) answers 201 and
creates the directed self edge, which then passes send-alert's contact gate,
so the self alert row is inserted (send-alert answers something other than
403; its final location upsert still fails, which does not undo the alert
insert). -/
theorem self_contact_allowed (s : LocState) (U : Nat) (la lo : Int) (n n2 : Nat)
    (hU : U ≠ 0) (hmem : s.users.contains U = true) :
    (addContact s U U n).2 = 201 ∧
    ((addContact s U U n).1.user_contacts.any fun c =>
      c.user_id == U && c.contact_user_id == U) = true ∧
    (sendAlert (addContact s U U n).1 U U (some la) (some lo) n2).2 ≠ 403 ∧
    ((sendAlert (addContact s U U n).1 U U (some la) (some lo) n2).1.location_alerts.any
      fun a => a.user_id == U && a.contact_user_id == U && a.alert_status == "active")
      = true := by
  have hU0 : (U == 0) = false := by
    simpa using hU
  have hcv : conflictTargetValid userContactsUniques ["user_id", "contact_user_id"]
      = true := by decide
  have hcontact : ((addContact s U U n).1.user_contacts.any fun c =>
      c.user_id == U && c.contact_user_id == U) = true := by
    simp only [addContact, hU0, hmem, hcv]
    simp only [Bool.false_eq_true, if_false, Bool.not_true, if_true]
    split
    · next hex =>
      rcases List.any_eq_true.mp hex with ⟨c0, hc0, hp0⟩
      apply List.any_eq_true.mpr
      refine ⟨if (c0.user_id == U && c0.contact_user_id == U) = true
        then { c0 with updated_at := n } else c0, List.mem_map_of_mem _ hc0, ?_⟩
      rw [if_pos hp0]
      simpa using hp0
    · apply List.any_eq_true.mpr
      exact ⟨{ id := s.nextContactId, user_id := U, contact_user_id := U,
               created_at := n, updated_at := n }, by simp, by simp⟩
  have hcode : (addContact s U U n).2 = 201 := by
    simp only [addContact, hU0, hmem, hcv]
    simp only [Bool.false_eq_true, if_false, Bool.not_true, if_true]
    split <;> rfl
  refine ⟨hcode, hcontact, ?_, ?_⟩
  · simp only [sendAlert, hU0, hcontact]
    simp only [Option.isNone_some, Bool.or_false, Bool.false_eq_true, if_false,
      Bool.not_true, if_true]
    split
    · next h => exact absurd h (by decide)
    · simp
  · simp only [sendAlert, hU0, hcontact]
    simp only [Option.isNone_some, Bool.or_false, Bool.false_eq_true, if_false,
      Bool.not_true, if_true]
    split
    · next h => exact absurd h (by decide)
    · apply List.any_eq_true.mpr
      refine ⟨{ id := (addContact s U U n).1.nextAlertId, user_id := U,
                contact_user_id := U, alert_status := "active", started_at := n2,
                ended_at := none }, ?_, by simp⟩
      simp

/-- C10 witness: user 1 adds themself and the self contact passes the gate. -/
theorem self_contact_allowed_witness :
    (addContact (locInit [1]) 1 1 0).2 = 201 ∧
    (sendAlert (addContact (locInit [1]) 1 1 0).1 1 1 (some 3) (some 4) 1).2 ≠ 403 := by
  have h := self_contact_allowed (locInit [1]) 1 3 4 0 1 (by decide) (by decide)
  exact ⟨h.1, h.2.2.1⟩

/-! ## Helper lemmas for the messaging module -/

theorem status_after_mark (l : List InvitationRow) (iid now : Nat) (st : String) :
    ∀ i ∈ l.map (fun i =>
      if i.id == iid then { i with status := st, updated_at := now } else i),
      i.id = iid → i.status = st := by
  intro i hi hid
  rcases List.mem_map.mp hi with ⟨y, _, rfl⟩
  by_cases hy : (y.id == iid) = true
  · rw [if_pos hy]
  · rw [if_neg hy] at hid ⊢
    exact absurd (by simp [hid]) hy

theorem mem_after_mark (l : List InvitationRow) (iid now : Nat) (st : String)
    (i : InvitationRow) (hi : i ∈ l) (hne : i.id ≠ iid) :
    i ∈ l.map (fun j =>
      if j.id == iid then { j with status := st, updated_at := now } else j) := by
  have hkeep : (if (i.id == iid) = true
      then { i with status := st, updated_at := now } else i) = i := by
    rw [if_neg]
    simp [hne]
  exact hkeep ▸ List.mem_map_of_mem _ hi

theorem sendInvitation_pending (s : MsgState) (a b now : Nat) :
    (sendInvitation s a b now).2 = 201 →
    ∀ i ∈ (sendInvitation s a b now).1.chat_invitations,
      i.sender_id = a → i.receiver_id = b → i.status = "pending" := by
  simp only [sendInvitation]
  split
  · intro h
    simp at h
  · split
    · intro h
      simp at h
    · split
      · intro h
        simp at h
      · split
        · split
          · intro _ i hi hsi hri
            rcases List.mem_map.mp hi with ⟨y, _, rfl⟩
            by_cases hyy : (y.sender_id == a && y.receiver_id == b) = true
            · rw [if_pos hyy]
            · rw [if_neg hyy] at hsi hri ⊢
              exact absurd (by simp [hsi, hri]) hyy
          · next hex =>
            intro _ i hi hsi hri
            rcases List.mem_append.mp hi with h | h
            · exact absurd (List.any_eq_true.mpr ⟨i, h, by simp [hsi, hri]⟩) hex
            · rw [List.mem_singleton.mp h]
        · intro h
          simp at h

theorem accept_invs_eq (s : MsgState) (iid uid now : Nat) (inv : InvitationRow)
    (hfind : s.chat_invitations.find? (fun i => i.id == iid) = some inv)
    (hb : (inv.receiver_id != uid) = false) :
    (acceptInvitation s iid uid now).1.chat_invitations =
      s.chat_invitations.map (fun i =>
        if i.id == iid then { i with status := "accepted", updated_at := now }
        else i) := by
  simp only [acceptInvitation, hfind, hb, Bool.false_eq_true, if_false]
  repeat' split
  all_goals rfl

theorem decline_invs_eq (s : MsgState) (iid uid now : Nat) (inv : InvitationRow)
    (hfind : s.chat_invitations.find? (fun i => i.id == iid) = some inv)
    (hb : (inv.receiver_id != uid) = false) :
    (declineInvitation s iid uid now).1.chat_invitations =
      s.chat_invitations.map (fun i =>
        if i.id == iid then { i with status := "declined", updated_at := now }
        else i) := by
  simp only [declineInvitation, hfind, hb, Bool.false_eq_true, if_false]

theorem cancel_invs_eq (s : MsgState) (iid uid now : Nat) (inv : InvitationRow)
    (hfind : s.chat_invitations.find? (fun i => i.id == iid) = some inv)
    (hb : (inv.sender_id != uid) = false)
    (hs : (inv.status != "pending") = false) :
    (cancelInvitation s iid uid now).1.chat_invitations =
      s.chat_invitations.map (fun i =>
        if i.id == iid then { i with status := "canceled", updated_at := now }
        else i) := by
  simp only [cancelInvitation, hfind, hb, hs, Bool.false_eq_true, if_false]

theorem accept_invs_cases (s : MsgState) (iid uid now : Nat) :
    (acceptInvitation s iid uid now).1.chat_invitations = s.chat_invitations ∨
    (acceptInvitation s iid uid now).1.chat_invitations =
      s.chat_invitations.map (fun i =>
        if i.id == iid then { i with status := "accepted", updated_at := now }
        else i) := by
  simp only [acceptInvitation]
  repeat' split
  all_goals first
    | exact Or.inl rfl
    | exact Or.inr rfl

theorem decline_invs_cases (s : MsgState) (iid uid now : Nat) :
    (declineInvitation s iid uid now).1.chat_invitations = s.chat_invitations ∨
    (declineInvitation s iid uid now).1.chat_invitations =
      s.chat_invitations.map (fun i =>
        if i.id == iid then { i with status := "declined", updated_at := now }
        else i) := by
  simp only [declineInvitation]
  repeat' split
  all_goals first
    | exact Or.inl rfl
    | exact Or.inr rfl

theorem cancel_invs_cases (s : MsgState) (iid uid now : Nat) :
    (cancelInvitation s iid uid now).1.chat_invitations = s.chat_invitations ∨
    (cancelInvitation s iid uid now).1.chat_invitations =
      s.chat_invitations.map (fun i =>
        if i.id == iid then { i with status := "canceled", updated_at := now }
        else i) := by
  simp only [cancelInvitation]
  repeat' split
  all_goals first
    | exact Or.inl rfl
    | exact Or.inr rfl

/-! ## C4 -/

/-- State with one invitation, id 1 from user 1 to user 2, already canceled. -/
def invCexState : MsgState :=
  { users := [1, 2],
    chat_invitations := [{ id := 1, sender_id := 1, receiver_id := 2,
                           status := "canceled", created_at := 0, updated_at := 0 }],
    conversations := [], messages := [], conversation_deleted_by := [],
    nextInvId := 2, nextConvId := 1, nextMsgId := 1 }

/-- C4 counterexample: invitation 1 is already canceled (a non-pending,
terminal state), yet the receiver's accept answers 200 and overwrites the
status to accepted, instead of failing and leaving the row unchanged. -/
theorem accept_nonpending_counterexample :
    (acceptInvitation invCexState 1 2 7).2.status = 200 ∧
    (acceptInvitation invCexState 1 2 7).1.chat_invitations =
      [{ id := 1, sender_id := 1, receiver_id := 2, status := "accepted",
         created_at := 0, updated_at := 7 }] := by
  decide

/-- C4 amended: accept and decline only require the acting user to be the
receiver and are permitted from ANY current status, overwriting even
terminal states; only cancel additionally requires the current status to be
pending (400 otherwise) and the acting user to be the sender; rows with
other ids are untouched, and a successful sendInvitation upsert resets the
pair's status to pending. -/
theorem invitation_lifecycle_spec (s : MsgState) (iid uid now : Nat) :
    (s.chat_invitations.find? (fun i => i.id == iid) = none →
      acceptInvitation s iid uid now = (s, { status := 404, conversation := none }) ∧
      declineInvitation s iid uid now = (s, 404) ∧
      cancelInvitation s iid uid now = (s, 404)) ∧
    (∀ inv, s.chat_invitations.find? (fun i => i.id == iid) = some inv →
      (inv.receiver_id ≠ uid →
        acceptInvitation s iid uid now = (s, { status := 403, conversation := none }) ∧
        declineInvitation s iid uid now = (s, 403)) ∧
      (inv.receiver_id = uid →
        (∀ i ∈ (acceptInvitation s iid uid now).1.chat_invitations,
          i.id = iid → i.status = "accepted") ∧
        (declineInvitation s iid uid now).2 = 200 ∧
        (∀ i ∈ (declineInvitation s iid uid now).1.chat_invitations,
          i.id = iid → i.status = "declined")) ∧
      (inv.sender_id ≠ uid → cancelInvitation s iid uid now = (s, 403)) ∧
      (inv.sender_id = uid → inv.status ≠ "pending" →
        cancelInvitation s iid uid now = (s, 400)) ∧
      (inv.sender_id = uid → inv.status = "pending" →
        (cancelInvitation s iid uid now).2 = 200 ∧
        (∀ i ∈ (cancelInvitation s iid uid now).1.chat_invitations,
          i.id = iid → i.status = "canceled"))) ∧
    (∀ i ∈ s.chat_invitations, i.id ≠ iid →
      i ∈ (acceptInvitation s iid uid now).1.chat_invitations ∧
      i ∈ (declineInvitation s iid uid now).1.chat_invitations ∧
      i ∈ (cancelInvitation s iid uid now).1.chat_invitations) ∧
    (∀ a b, (sendInvitation s a b now).2 = 201 →
      ∀ i ∈ (sendInvitation s a b now).1.chat_invitations,
        i.sender_id = a → i.receiver_id = b → i.status = "pending") := by
  refine ⟨?_, ?_, ?_, ?_⟩
  · intro hfind
    refine ⟨?_, ?_, ?_⟩ <;> simp [acceptInvitation, declineInvitation,
      cancelInvitation, hfind]
  · intro inv hfind
    refine ⟨?_, ?_, ?_, ?_, ?_⟩
    · intro hrecv
      have hb : (inv.receiver_id != uid) = true := by simpa using hrecv
      constructor <;>
        simp [acceptInvitation, declineInvitation, hfind, hb]
    · intro hrecv
      have hb : (inv.receiver_id != uid) = false := by simp [hrecv]
      refine ⟨?_, ?_, ?_⟩
      · rw [accept_invs_eq s iid uid now inv hfind hb]
        exact status_after_mark s.chat_invitations iid now "accepted"
      · simp [declineInvitation, hfind, hb]
      · rw [decline_invs_eq s iid uid now inv hfind hb]
        exact status_after_mark s.chat_invitations iid now "declined"
    · intro hsend
      have hb : (inv.sender_id != uid) = true := by simpa using hsend
      simp [cancelInvitation, hfind, hb]
    · intro hsend hstatus
      have hb : (inv.sender_id != uid) = false := by simp [hsend]
      have hs : (inv.status != "pending") = true := by simpa using hstatus
      simp [cancelInvitation, hfind, hb, hs]
    · intro hsend hstatus
      have hb : (inv.sender_id != uid) = false := by simp [hsend]
      have hs : (inv.status != "pending") = false := by simp [hstatus]
      constructor
      · simp [cancelInvitation, hfind, hb, hs]
      · rw [cancel_invs_eq s iid uid now inv hfind hb hs]
        exact status_after_mark s.chat_invitations iid now "canceled"
  · intro i hi hne
    refine ⟨?_, ?_, ?_⟩
    · cases accept_invs_cases s iid uid now with
      | inl h =>
        rw [h]
        exact hi
      | inr h =>
        rw [h]
        exact mem_after_mark _ _ _ _ i hi hne
    · cases decline_invs_cases s iid uid now with
      | inl h =>
        rw [h]
        exact hi
      | inr h =>
        rw [h]
        exact mem_after_mark _ _ _ _ i hi hne
    · cases cancel_invs_cases s iid uid now with
      | inl h =>
        rw [h]
        exact hi
      | inr h =>
        rw [h]
        exact mem_after_mark _ _ _ _ i hi hne
  · exact fun a b => sendInvitation_pending s a b now

/-- C4 witness: canceling the already-canceled invitation 1 by its sender
fails with 400 and leaves the state unchanged. -/
theorem invitation_lifecycle_spec_witness :
    cancelInvitation invCexState 1 1 9 = (invCexState, 400) :=
  (((invitation_lifecycle_spec invCexState 1 1 9).2.1
    { id := 1, sender_id := 1, receiver_id := 2, status := "canceled",
      created_at := 0, updated_at := 0 }
    (by decide)).2.2.2.1 rfl (by decide))

/-! ## C5 -/

/-- State with a pending invitation 1 from user 1 to user 2 and the canonical
conversation for the pair (id 5) already present. -/
def acceptCexState : MsgState :=
  { users := [1, 2],
    chat_invitations := [{ id := 1, sender_id := 1, receiver_id := 2,
                           status := "pending", created_at := 0, updated_at := 0 }],
    conversations := [{ id := 5, user1_id := 1, user2_id := 2, created_at := 0,
                        updated_at := 0 }],
    messages := [], conversation_deleted_by := [],
    nextInvId := 2, nextConvId := 6, nextMsgId := 1 }

/-- C5 counterexample: when the canonical conversation already exists (the
second-accept situation), accept answers 200 and creates no second row, but
ON CONFLICT DO NOTHING RETURNING yields no row, so the response carries no
conversation record at all — it does not return the existing record as the
claim requires. -/
theorem accept_existing_conversation_counterexample :
    (acceptInvitation acceptCexState 1 2 3).2.status = 200 ∧
    (acceptInvitation acceptCexState 1 2 3).2.conversation = none ∧
    (acceptInvitation acceptCexState 1 2 3).1.conversations =
      acceptCexState.conversations := by
  decide

/-- C5 amended: accepting a pending invitation marks it accepted and is
idempotent in state — when the canonical (min, max) conversation already
exists no second row is created and the call does not error — but only an
accept that actually inserts the conversation returns the conversation
record; a repeated (or reciprocal) accept answers 200 with no conversation
record in the response. -/
theorem acceptInvitation_conversation_spec (s : MsgState) (iid uid now : Nat)
    (inv : InvitationRow)
    (hfind : s.chat_invitations.find? (fun i => i.id == iid) = some inv)
    (hrecv : inv.receiver_id = uid)
    (hne : inv.sender_id ≠ inv.receiver_id) :
    (acceptInvitation s iid uid now).2.status = 200 ∧
    (∀ i ∈ (acceptInvitation s iid uid now).1.chat_invitations,
      i.id = iid → i.status = "accepted") ∧
    (if (s.conversations.any fun c =>
          c.user1_id == min inv.sender_id inv.receiver_id &&
          c.user2_id == max inv.sender_id inv.receiver_id) then
      (acceptInvitation s iid uid now).1.conversations = s.conversations ∧
      (acceptInvitation s iid uid now).2.conversation = none
    else
      ∃ cr, (acceptInvitation s iid uid now).2.conversation = some cr ∧
        cr.user1_id = min inv.sender_id inv.receiver_id ∧
        cr.user2_id = max inv.sender_id inv.receiver_id ∧
        (acceptInvitation s iid uid now).1.conversations =
          s.conversations ++ [cr]) := by
  have hb : (inv.receiver_id != uid) = false := by simp [hrecv]
  have hmm : (min inv.sender_id inv.receiver_id == max inv.sender_id
      inv.receiver_id) = false := by
    simp only [beq_eq_false_iff_ne, ne_eq, Nat.min_def, Nat.max_def]
    split <;> omega
  refine ⟨?_, ?_, ?_⟩
  · simp only [acceptInvitation, hfind, hb, hmm, Bool.false_eq_true, if_false]
    split <;> rfl
  · rw [accept_invs_eq s iid uid now inv hfind hb]
    exact status_after_mark s.chat_invitations iid now "accepted"
  · by_cases hex : (s.conversations.any fun c =>
        c.user1_id == min inv.sender_id inv.receiver_id &&
        c.user2_id == max inv.sender_id inv.receiver_id) = true
    · rw [if_pos hex]
      have hacc : acceptInvitation s iid uid now =
          ({ s with chat_invitations := s.chat_invitations.map (fun i =>
              if i.id == iid then { i with status := "accepted", updated_at := now }
              else i) },
           { status := 200, conversation := none }) := by
        simp only [acceptInvitation, hfind, hb, hmm, hex, Bool.false_eq_true,
          if_false, if_true]
      rw [hacc]
      exact ⟨rfl, rfl⟩
    · rw [if_neg hex]
      rw [Bool.not_eq_true] at hex
      have hacc : acceptInvitation s iid uid now =
          ({ s with
              chat_invitations := s.chat_invitations.map (fun i =>
                if i.id == iid then { i with status := "accepted", updated_at := now }
                else i),
              conversations := s.conversations ++
                [{ id := s.nextConvId,
                   user1_id := min inv.sender_id inv.receiver_id,
                   user2_id := max inv.sender_id inv.receiver_id,
                   created_at := now, updated_at := now }],
              nextConvId := s.nextConvId + 1 },
           { status := 200,
             conversation := some
               { id := s.nextConvId,
                 user1_id := min inv.sender_id inv.receiver_id,
                 user2_id := max inv.sender_id inv.receiver_id,
                 created_at := now, updated_at := now } }) := by
        simp only [acceptInvitation, hfind, hb, hmm, hex, Bool.false_eq_true,
          if_false]
      rw [hacc]
      exact ⟨{ id := s.nextConvId,
               user1_id := min inv.sender_id inv.receiver_id,
               user2_id := max inv.sender_id inv.receiver_id,
               created_at := now, updated_at := now }, rfl, rfl, rfl, rfl⟩

/-- C5 witness: a first accept, with no conversation present yet, answers 200. -/
theorem acceptInvitation_conversation_spec_witness :
    (acceptInvitation { acceptCexState with conversations := [] } 1 2 3).2.status
      = 200 :=
  (acceptInvitation_conversation_spec { acceptCexState with conversations := [] }
    1 2 3
    { id := 1, sender_id := 1, receiver_id := 2, status := "pending",
      created_at := 0, updated_at := 0 }
    (by decide) (by decide) (by decide)).1

/-! ## Sorting helper lemmas -/

theorem perm_insertDescBy (key : MessageRow → Nat) (x : MessageRow)
    (l : List MessageRow) : (insertDescBy key x l).Perm (x :: l) := by
  induction l with
  | nil => exact List.Perm.refl _
  | cons y ys ih =>
    simp only [insertDescBy]
    split
    · exact List.Perm.refl _
    · exact (List.Perm.cons y ih).trans (List.Perm.swap x y ys)

theorem perm_sortDescBy (key : MessageRow → Nat) (l : List MessageRow) :
    (sortDescBy key l).Perm l := by
  induction l with
  | nil => exact List.Perm.refl _
  | cons x xs ih =>
    exact (perm_insertDescBy key x _).trans (List.Perm.cons x ih)

theorem perm_insertConvDescBy (key : ConversationRow → Nat) (x : ConversationRow)
    (l : List ConversationRow) : (insertConvDescBy key x l).Perm (x :: l) := by
  induction l with
  | nil => exact List.Perm.refl _
  | cons y ys ih =>
    simp only [insertConvDescBy]
    split
    · exact List.Perm.refl _
    · exact (List.Perm.cons y ih).trans (List.Perm.swap x y ys)

theorem perm_sortConvDescBy (key : ConversationRow → Nat)
    (l : List ConversationRow) : (sortConvDescBy key l).Perm l := by
  induction l with
  | nil => exact List.Perm.refl _
  | cons x xs ih =>
    exact (perm_insertConvDescBy key x _).trans (List.Perm.cons x ih)

/-- Concrete demonstration state shared by several witnesses: users 1 and 2,
conversation 5 between them, two messages (one from each, both unread), and
user 2 holding a soft-delete mark on conversation 5 stamped 3. -/
def msgDemoState : MsgState :=
  { users := [1, 2],
    chat_invitations := [],
    conversations := [{ id := 5, user1_id := 1, user2_id := 2, created_at := 0,
                        updated_at := 0 }],
    messages := [{ id := 1, conversation_id := 5, sender_id := 1, content := "hi",
                   message_type := "text", is_read := false, created_at := 1 },
                 { id := 2, conversation_id := 5, sender_id := 2, content := "yo",
                   message_type := "text", is_read := false, created_at := 2 }],
    conversation_deleted_by := [{ conversation_id := 5, user_id := 2,
                                  deleted_at := 3 }],
    nextInvId := 1, nextConvId := 6, nextMsgId := 3 }

/-! ## C9 -/

/-- C9: deleteConversation answers 403 leaving the state unchanged when the
caller is no participant; for a participant it answers 200, inserting a
soft-delete mark stamped with the current time when none exists and doing
nothing at all when one does (the first mark's timestamp wins, never
refreshed), so a second delete leaves exactly the state of the first. -/
theorem deleteConversation_idempotent (s : MsgState) (cid P now now2 : Nat) :
    (s.conversations.find? (fun c =>
        c.id == cid && (c.user1_id == P || c.user2_id == P)) = none →
      deleteConversation s cid P now = (s, 403)) ∧
    (∀ conv, s.conversations.find? (fun c =>
        c.id == cid && (c.user1_id == P || c.user2_id == P)) = some conv →
      (deleteConversation s cid P now).2 = 200 ∧
      ((s.conversation_deleted_by.any fun d =>
          d.conversation_id == cid && d.user_id == P) = true →
        (deleteConversation s cid P now).1 = s) ∧
      ((s.conversation_deleted_by.any fun d =>
          d.conversation_id == cid && d.user_id == P) = false →
        (deleteConversation s cid P now).1.conversation_deleted_by =
          s.conversation_deleted_by ++
            [{ conversation_id := cid, user_id := P, deleted_at := now }]) ∧
      deleteConversation (deleteConversation s cid P now).1 cid P now2 =
        ((deleteConversation s cid P now).1, 200)) := by
  constructor
  · intro hfind
    simp [deleteConversation, hfind]
  · intro conv hfind
    refine ⟨?_, ?_, ?_, ?_⟩
    · simp only [deleteConversation, hfind]
      split <;> rfl
    · intro hany
      simp [deleteConversation, hfind, hany]
    · intro hany
      simp [deleteConversation, hfind, hany]
    · by_cases hany : (s.conversation_deleted_by.any fun d =>
          d.conversation_id == cid && d.user_id == P) = true
      · have hs1 : (deleteConversation s cid P now).1 = s := by
          simp [deleteConversation, hfind, hany]
        rw [hs1]
        simp [deleteConversation, hfind, hany]
      · rw [Bool.not_eq_true] at hany
        have hs1 : (deleteConversation s cid P now).1 =
            { s with conversation_deleted_by := s.conversation_deleted_by ++
                [{ conversation_id := cid, user_id := P, deleted_at := now }] } := by
          simp [deleteConversation, hfind, hany]
        rw [hs1]
        have hany2 : (s.conversation_deleted_by ++
            [({ conversation_id := cid, user_id := P,
                deleted_at := now } : DeletedRow)]).any
              (fun d => d.conversation_id == cid && d.user_id == P) = true := by
          rw [List.any_append]
          simp
        simp [deleteConversation, hfind, hany2]

/-- C9 witness: deleting conversation 5 as participant 1 answers 200, and a
second delete right after leaves the state of the first unchanged. -/
theorem deleteConversation_idempotent_witness :
    deleteConversation (deleteConversation msgDemoState 5 1 10).1 5 1 20 =
      ((deleteConversation msgDemoState 5 1 10).1, 200) :=
  ((deleteConversation_idempotent msgDemoState 5 1 10 20).2
    { id := 5, user1_id := 1, user2_id := 2, created_at := 0, updated_at := 0 }
    (by decide)).2.2.2

/-! ## C8 -/

/-- C8: a participant's getMessages flips is_read to true on exactly the
conversation's messages whose sender is not the caller and that were unread
(the whole conversation, not only the returned page) and changes no other
field of any message; the caller's own messages are never marked. -/
theorem getMessages_marks_read (s : MsgState) (cid P limit offs : Nat)
    (conv : ConversationRow)
    (hfind : s.conversations.find? (fun c =>
      c.id == cid && (c.user1_id == P || c.user2_id == P)) = some conv) :
    (getMessages s cid P limit offs).1.messages.length = s.messages.length ∧
    ∀ (i : Nat) (h1 : i < s.messages.length)
      (h2 : i < (getMessages s cid P limit offs).1.messages.length),
      ((getMessages s cid P limit offs).1.messages[i].id = s.messages[i].id ∧
       (getMessages s cid P limit offs).1.messages[i].conversation_id =
         s.messages[i].conversation_id ∧
       (getMessages s cid P limit offs).1.messages[i].sender_id =
         s.messages[i].sender_id ∧
       (getMessages s cid P limit offs).1.messages[i].content =
         s.messages[i].content ∧
       (getMessages s cid P limit offs).1.messages[i].message_type =
         s.messages[i].message_type ∧
       (getMessages s cid P limit offs).1.messages[i].created_at =
         s.messages[i].created_at) ∧
      (getMessages s cid P limit offs).1.messages[i].is_read =
        (s.messages[i].is_read ||
          (s.messages[i].conversation_id == cid && s.messages[i].sender_id != P)) := by
  have hmsgs : (getMessages s cid P limit offs).1.messages =
      s.messages.map (fun m =>
        if m.conversation_id == cid && m.sender_id != P && m.is_read == false
        then { m with is_read := true } else m) := by
    simp only [getMessages, hfind]
  constructor
  · rw [hmsgs, List.length_map]
  · intro i h1 h2
    have hget : (getMessages s cid P limit offs).1.messages[i] =
        (if s.messages[i].conversation_id == cid && s.messages[i].sender_id != P &&
            s.messages[i].is_read == false
         then { s.messages[i] with is_read := true } else s.messages[i]) := by
      simp only [hmsgs, List.getElem_map]
    rw [hget]
    by_cases hcond : (s.messages[i].conversation_id == cid &&
        s.messages[i].sender_id != P && s.messages[i].is_read == false) = true
    · rw [if_pos hcond]
      simp only [Bool.and_eq_true, beq_iff_eq] at hcond
      obtain ⟨⟨hconv, hsend⟩, hread⟩ := hcond
      refine ⟨⟨rfl, rfl, rfl, rfl, rfl, rfl⟩, ?_⟩
      simp [hconv, hsend, hread]
    · rw [if_neg hcond]
      refine ⟨⟨rfl, rfl, rfl, rfl, rfl, rfl⟩, ?_⟩
      rw [Bool.not_eq_true] at hcond
      cases hr : s.messages[i].is_read with
      | true => simp
      | false =>
        rw [hr] at hcond
        simp only [beq_self_eq_true, Bool.and_true] at hcond
        simp [hcond]

/-- C8 witness: the read-marking frame property applied to the demonstration
state; the message table keeps its length. -/
theorem getMessages_marks_read_witness :
    (getMessages msgDemoState 5 1 50 0).1.messages.length =
      msgDemoState.messages.length :=
  (getMessages_marks_read msgDemoState 5 1 50 0
    { id := 5, user1_id := 1, user2_id := 2, created_at := 0, updated_at := 0 }
    (by decide)).1

/-! ## C7 -/

/-- C7: for a participant P holding a soft-delete mark with timestamp T on the
conversation, every message page row returned by getMessages has creation
timestamp strictly greater than T; a participant Q holding no mark sees, with
a large enough limit and offset 0, exactly the conversation's full message
history. -/
theorem getMessages_visibility (s : MsgState) (cid P Q limit offs : Nat)
    (convP convQ : ConversationRow) (d : DeletedRow)
    (hfindP : s.conversations.find? (fun c =>
      c.id == cid && (c.user1_id == P || c.user2_id == P)) = some convP)
    (hdelP : s.conversation_deleted_by.find? (fun x =>
      x.conversation_id == cid && x.user_id == P) = some d)
    (hfindQ : s.conversations.find? (fun c =>
      c.id == cid && (c.user1_id == Q || c.user2_id == Q)) = some convQ)
    (hdelQ : s.conversation_deleted_by.find? (fun x =>
      x.conversation_id == cid && x.user_id == Q) = none)
    (hlim : (s.messages.filter (fun m => m.conversation_id == cid)).length ≤ limit) :
    (∀ m ∈ (getMessages s cid P limit offs).2.rows, d.deleted_at < m.created_at) ∧
    (∀ m, m ∈ (getMessages s cid Q limit 0).2.rows ↔
      m ∈ s.messages ∧ m.conversation_id = cid) := by
  constructor
  · have hrows : (getMessages s cid P limit offs).2.rows =
        (((sortDescBy (fun m => m.created_at)
            ((s.messages.filter (fun m => m.conversation_id == cid)).filter
              (fun m => d.deleted_at < m.created_at))).drop offs).take
          limit).reverse := by
      simp only [getMessages, hfindP, hdelP]
    rw [hrows]
    intro m hm
    have hm2 : m ∈ (sortDescBy (fun m => m.created_at)
        ((s.messages.filter (fun m => m.conversation_id == cid)).filter
          (fun m => d.deleted_at < m.created_at))) :=
      List.mem_of_mem_drop (List.mem_of_mem_take (List.mem_reverse.mp hm))
    have hm3 := (perm_sortDescBy (fun m => m.created_at) _).mem_iff.mp hm2
    exact of_decide_eq_true (List.mem_filter.mp hm3).2
  · have hrows : (getMessages s cid Q limit 0).2.rows =
        (((sortDescBy (fun m => m.created_at)
            (s.messages.filter (fun m => m.conversation_id == cid))).drop 0).take
          limit).reverse := by
      simp only [getMessages, hfindQ, hdelQ]
    have hlen : (sortDescBy (fun m => m.created_at)
        (s.messages.filter (fun m => m.conversation_id == cid))).length ≤ limit := by
      rw [(perm_sortDescBy (fun m => m.created_at) _).length_eq]
      exact hlim
    rw [hrows, List.drop_zero _, List.take_of_length_le hlen]
    intro m
    rw [List.mem_reverse,
      (perm_sortDescBy (fun m => m.created_at) _).mem_iff, List.mem_filter]
    constructor
    · rintro ⟨h1, h2⟩
      exact ⟨h1, by simpa using h2⟩
    · rintro ⟨h1, h2⟩
      exact ⟨h1, by simpa using h2⟩

/-- C7 witness: user 1 (no mark) sees message 1 of conversation 5 in the
demonstration state. -/
theorem getMessages_visibility_witness :
    ({ id := 1, conversation_id := 5, sender_id := 1, content := "hi",
       message_type := "text", is_read := false,
       created_at := 1 } : MessageRow) ∈ (getMessages msgDemoState 5 1 50 0).2.rows ↔
    ({ id := 1, conversation_id := 5, sender_id := 1, content := "hi",
       message_type := "text", is_read := false,
       created_at := 1 } : MessageRow) ∈ msgDemoState.messages ∧
    ({ id := 1, conversation_id := 5, sender_id := 1, content := "hi",
       message_type := "text", is_read := false,
       created_at := 1 } : MessageRow).conversation_id = 5 :=
  (getMessages_visibility msgDemoState 5 2 1 50 0
    { id := 5, user1_id := 1, user2_id := 2, created_at := 0, updated_at := 0 }
    { id := 5, user1_id := 1, user2_id := 2, created_at := 0, updated_at := 0 }
    { conversation_id := 5, user_id := 2, deleted_at := 3 }
    (by decide) (by decide) (by decide) (by decide) (by decide)).2
    { id := 1, conversation_id := 5, sender_id := 1, content := "hi",
      message_type := "text", is_read := false, created_at := 1 }

/-! ## C6 -/

theorem filter_deleted_frame (l : List DeletedRow) (cid Q P : Nat) (hQP : Q ≠ P) :
    (l.filter (fun d => !(d.conversation_id == cid && d.user_id == Q))).filter
      (fun d => d.user_id == P) = l.filter (fun d => d.user_id == P) := by
  induction l with
  | nil => rfl
  | cons x xs ih =>
    simp only [List.filter_cons]
    by_cases hxq : (x.conversation_id == cid && x.user_id == Q) = true
    · rw [if_neg (by simp [hxq])]
      have hxp : (x.user_id == P) = false := by
        simp only [Bool.and_eq_true, beq_iff_eq] at hxq
        simp [hxq.2, hQP]
      rw [ih, if_neg (by simp [hxp])]
    · rw [if_pos (by simp [hxq])]
      simp only [List.filter_cons]
      rw [ih]

/-- C6: when participant P sends a non-empty message in conversation C, the
counterpart Q's soft-delete marks on C are removed (so C is listed again for
Q), while P's own marks are untouched — reappearance is caused only by the
counterpart's activity. -/
theorem sendMessage_reappearance (s : MsgState) (cid P Q : Nat)
    (content mt : String) (now : Nat) (conv : ConversationRow)
    (hc : content ≠ "")
    (hfind : s.conversations.find? (fun c =>
      c.id == cid && (c.user1_id == P || c.user2_id == P)) = some conv)
    (hpq : (conv.user1_id = P ∧ conv.user2_id = Q) ∨
           (conv.user1_id = Q ∧ conv.user2_id = P))
    (hdiff : P ≠ Q)
    (hp : P ∈ s.users) :
    (∀ d ∈ (sendMessage s cid P content mt now).1.conversation_deleted_by,
      ¬(d.conversation_id = cid ∧ d.user_id = Q)) ∧
    (sendMessage s cid P content mt now).1.conversation_deleted_by.filter
        (fun d => d.user_id == P) =
      s.conversation_deleted_by.filter (fun d => d.user_id == P) ∧
    ∃ c ∈ listConversations (sendMessage s cid P content mt now).1 Q,
      c.id = cid := by
  have hc0 : (content == "") = false := by simpa using hc
  have hpred := List.find?_some hfind
  simp only [Bool.and_eq_true, Bool.or_eq_true, beq_iff_eq] at hpred
  obtain ⟨hcid, -⟩ := hpred
  have hconvmem : conv ∈ s.conversations := List.mem_of_find?_eq_some hfind
  have hother : (if conv.user1_id == P then conv.user2_id else conv.user1_id)
      = Q := by
    rcases hpq with ⟨h1, h2⟩ | ⟨h1, h2⟩
    · rw [if_pos (by simp [h1])]
      exact h2
    · rw [if_neg (by simp [h1, hdiff.symm])]
      exact h1
  have hstate : (sendMessage s cid P content mt now).1 =
      { s with
          conversation_deleted_by := s.conversation_deleted_by.filter (fun d =>
            !(d.conversation_id == cid && d.user_id == Q)),
          messages := s.messages ++
            [{ id := s.nextMsgId, conversation_id := cid, sender_id := P,
               content := content,
               message_type := if mt == "" then "text" else mt,
               is_read := false, created_at := now }],
          conversations := s.conversations.map (fun c =>
            if c.id == cid then { c with updated_at := now } else c),
          nextMsgId := s.nextMsgId + 1 } := by
    simp only [sendMessage, hc0, Bool.false_eq_true, if_false, hfind, hother]
  have hdel : (sendMessage s cid P content mt now).1.conversation_deleted_by =
      s.conversation_deleted_by.filter (fun d =>
        !(d.conversation_id == cid && d.user_id == Q)) := by
    rw [hstate]
  have hconvs : (sendMessage s cid P content mt now).1.conversations =
      s.conversations.map (fun c =>
        if c.id == cid then { c with updated_at := now } else c) := by
    rw [hstate]
  have husers : (sendMessage s cid P content mt now).1.users = s.users := by
    rw [hstate]
  refine ⟨?_, ?_, ?_⟩
  · rw [hdel]
    intro d hd
    have hkeep := (List.mem_filter.mp hd).2
    rintro ⟨h1, h2⟩
    rw [h1, h2] at hkeep
    simp at hkeep
  · rw [hdel]
    exact filter_deleted_frame s.conversation_deleted_by cid Q P (Ne.symm hdiff)
  · refine ⟨{ conv with updated_at := now }, ?_, hcid⟩
    simp only [listConversations, hconvs, hdel, husers]
    apply (perm_sortConvDescBy _ _).mem_iff.mpr
    apply List.mem_filter.mpr
    constructor
    · have himg : ({ conv with updated_at := now } : ConversationRow) =
          (if conv.id == cid then { conv with updated_at := now } else conv) := by
        rw [if_pos (by simp [hcid])]
      rw [himg]
      exact List.mem_map_of_mem _ hconvmem
    · show ((conv.user1_id == Q || conv.user2_id == Q) &&
          (s.users.contains (if conv.user1_id == Q then conv.user2_id
            else conv.user1_id)) &&
          !((s.conversation_deleted_by.filter (fun d =>
              !(d.conversation_id == cid && d.user_id == Q))).any (fun d =>
            d.user_id == Q && d.conversation_id == conv.id))) = true
      have hA : (conv.user1_id == Q || conv.user2_id == Q) = true := by
        rcases hpq with ⟨h1, h2⟩ | ⟨h1, h2⟩ <;> simp [h1, h2]
      have hB : s.users.contains (if conv.user1_id == Q then conv.user2_id
          else conv.user1_id) = true := by
        rcases hpq with ⟨h1, h2⟩ | ⟨h1, h2⟩
        · rw [if_neg (by simp [h1, hdiff])]
          rw [h1]
          exact List.elem_iff.mpr hp
        · rw [if_pos (by simp [h1])]
          rw [h2]
          exact List.elem_iff.mpr hp
      have hC : ((s.conversation_deleted_by.filter (fun d =>
          !(d.conversation_id == cid && d.user_id == Q))).any (fun d =>
          d.user_id == Q && d.conversation_id == conv.id)) = false := by
        rw [Bool.eq_false_iff]
        intro hany
        rcases List.any_eq_true.mp hany with ⟨d, hdmem, hdp⟩
        have hkeep := (List.mem_filter.mp hdmem).2
        simp only [Bool.and_eq_true, beq_iff_eq] at hdp
        rw [hdp.1, hdp.2] at hkeep
        simp [hcid] at hkeep
      rw [hA, hB, hC]
      rfl

/-- C6 witness: after user 1 sends into conversation 5, user 1's own marks
(there are none) are untouched: the sender's filtered mark list is unchanged. -/
theorem sendMessage_reappearance_witness :
    (sendMessage msgDemoState 5 1 "hello" "text" 9).1.conversation_deleted_by.filter
        (fun d => d.user_id == 1) =
      msgDemoState.conversation_deleted_by.filter (fun d => d.user_id == 1) :=
  (sendMessage_reappearance msgDemoState 5 1 2 "hello" "text" 9
    { id := 5, user1_id := 1, user2_id := 2, created_at := 0, updated_at := 0 }
    (by decide) (by decide) (Or.inl ⟨rfl, rfl⟩) (by decide) (by decide)).2.1

end BackendConnect
